import Mathlib

/-!
# Seafile desktop client: RPC client and repo tree view

A shallow embedding of `src/rpc/rpc-client.cpp` and `src/ui/repo-tree-view.cpp`.

Conventions of the embedding.

* The daemon is an oracle (`Daemon`): one reply per remote procedure and argument.
  A reply carries both the returned value and the `GError*` out-parameter, so that
  every combination the C interface allows can be expressed.
* Every client operation returns, next to its C++ results, the list of remote
  procedure calls it issued (`RpcCall`), in order.
* `QString` is `String`; a null `QString` is the empty string (Qt's `==` identifies
  them).  A nullable `char*` is `Option String`.
* A nullable out-parameter pointer is an `Option`: `none` is the null pointer,
  `some v` a pointer to a cell holding `v`.  An out-parameter that the code
  dereferences unconditionally is a plain value.
* C `int` values are `Int`; no operation of the embedded code does arithmetic on them.
-/

namespace SeafileClient

/-! ## RPC boundary -/

/-- GLib error record; the client only ever reads the message. -/
structure GError where
  message : String
deriving DecidableEq, Repr

/-- One positional argument of a remote call, tagged with its wire type. -/
inductive RpcArg where
  | str (s : String)
  | int (i : Int)
deriving DecidableEq, Repr

/-- One remote procedure call: the service handle, the procedure name, the arguments. -/
structure RpcCall where
  service : String
  fname : String
  args : List RpcArg
deriving DecidableEq, Repr

/-- Service name behind `seafile_rpc_client_`. -/
def kSeafileRpcService : String := "seafile-rpcserver"

/-- Service name behind `ccnet_rpc_client_`. -/
def kCcnetRpcService : String := "ccnet-rpcserver"

/-- Reply of `searpc_client_call__object`: the object pointer and the error out-parameter. -/
structure ObjReply (α : Type) where
  obj : Option α
  error : Option GError

/-- Reply of `searpc_client_call__objlist`: a `GList*` (the null pointer is the empty
list) and the error out-parameter. -/
structure ListReply (α : Type) where
  objs : List α
  error : Option GError

/-- Reply of `searpc_client_call__int`. -/
structure IntReply where
  ret : Int
  error : Option GError

/-- Reply of `searpc_client_call__string`. -/
structure StrReply where
  ret : Option String
  error : Option GError

/-! ## Daemon objects (the properties the client reads) -/

/-- Daemon object of type `SEAFILE_TYPE_REPO`. -/
structure SeafileRepo where
  id : Option String
  name : Option String
  worktree : Option String
  auto_sync : Bool
deriving DecidableEq, Repr

/-- Daemon object of type `SEAFILE_TYPE_SYNC_TASK`; `getSyncStatus` reads the
properties "state" and "error". -/
structure SeafileSyncTask where
  state : Option String
  error : Option String
deriving DecidableEq, Repr

/-- Daemon object of type `SEAFILE_TYPE_CLONE_TASK`. -/
structure SeafileCloneTask where
  repo_id : Option String
  state : Option String
  error_str : Option String
  block_done : Int
  block_total : Int
  checkout_done : Int
  checkout_total : Int
deriving DecidableEq, Repr

/-- Daemon object of type `SEAFILE_TYPE_TASK` (a transfer task); `getTransferDetail`
reads "error_str", "block_done" and "block_total". -/
structure SeafileTask where
  error_str : Option String
  block_done : Int
  block_total : Int
deriving DecidableEq, Repr

/-- Daemon object of type `SEAFILE_TYPE_CHECKOUT_TASK`; `getCheckOutDetail` reads
"total_files" and "finished_files". -/
structure SeafileCheckoutTask where
  total_files : Int
  finished_files : Int
deriving DecidableEq, Repr

/-- The daemon as seen through the RPC surface: the reply to each remote procedure
the client consumes, as a function of the call's arguments. -/
structure Daemon where
  seafile_get_repo_list : Int → Int → ListReply SeafileRepo
  seafile_get_repo : String → ObjReply SeafileRepo
  get_config : String → StrReply
  seafile_get_config : String → StrReply
  seafile_get_config_int : String → IntReply
  seafile_get_repo_sync_task : String → ObjReply SeafileSyncTask
  seafile_get_clone_tasks : ListReply SeafileCloneTask
  seafile_find_transfer_task : String → ObjReply SeafileTask
  seafile_get_checkout_task : String → ObjReply SeafileCheckoutTask
  seafile_cancel_clone_task : String → IntReply
  seafile_remove_clone_task : String → IntReply

/-! ## Value records -/

/-- Sync status of a local repo: the two arguments of the last `setSyncInfo` call. -/
structure SyncInfo where
  state : Option String
  error : Option String
deriving DecidableEq, Repr

/-- Local repo record (`local-repo.h`). -/
structure LocalRepo where
  id : String
  name : String
  worktree : String
  auto_sync : Bool
  sync_info : SyncInfo
deriving DecidableEq, Repr

/-- Server repo record as known to a user account. -/
structure ServerRepo where
  id : String
  name : String
deriving DecidableEq, Repr

/-- Clone task record (`clone-task.h`). -/
structure CloneTask where
  repo_id : String
  state : String
  error_str : String
  block_done : Int
  block_total : Int
  checkout_done : Int
  checkout_total : Int
  state_str : String
deriving DecidableEq, Repr

/-- Conversion of a nullable C string to a `QString`: the null pointer gives the
null (empty) string. -/
def QString.fromUtf8 (s : Option String) : String :=
  s.getD ""

/-- GLib's null-safe string comparison: `0` exactly when both are null or both are
equal strings; null sorts before every string. -/
def g_strcmp0 : Option String → Option String → Int
  | none, none => 0
  | none, some _ => -1
  | some _, none => 1
  | some a, some b => if a = b then 0 else if a < b then -1 else 1

/-- Modelled from the spec: `LocalRepo::setSyncInfo` (in `local-repo.cpp`, not part of
the excerpt).  The spec describes `sync_info` as a human status string plus an
optional error detail; the record keeps the two arguments of the call, the second
of which defaults to the null pointer. -/
def LocalRepo.setSyncInfo (repo : LocalRepo) (state : Option String)
    (err : Option String) : LocalRepo :=
  { repo with sync_info := { state := state, error := err } }

/-- Modelled from the spec: `LocalRepo::fromGObject` (in `local-repo.cpp`, not part of
the excerpt), the mapping of a daemon repo object to a `LocalRepo` record, field
by field, with no sync status yet. -/
def LocalRepo.fromGObject (obj : SeafileRepo) : LocalRepo :=
  { id := QString.fromUtf8 obj.id
    name := QString.fromUtf8 obj.name
    worktree := QString.fromUtf8 obj.worktree
    auto_sync := obj.auto_sync
    sync_info := { state := none, error := none } }

/-- Modelled from the spec: the default-constructed `LocalRepo` (constructor in
`local-repo.h`, not part of the excerpt). -/
def LocalRepo.empty : LocalRepo :=
  { id := "", name := "", worktree := "", auto_sync := false
    sync_info := { state := none, error := none } }

/-- Modelled from the spec: `CloneTask::fromGObject` (in `clone-task.cpp`, not part of
the excerpt), the mapping of a daemon clone-task object to a `CloneTask` record,
field by field, with no state label yet. -/
def CloneTask.fromGObject (obj : SeafileCloneTask) : CloneTask :=
  { repo_id := QString.fromUtf8 obj.repo_id
    state := QString.fromUtf8 obj.state
    error_str := QString.fromUtf8 obj.error_str
    block_done := obj.block_done
    block_total := obj.block_total
    checkout_done := obj.checkout_done
    checkout_total := obj.checkout_total
    state_str := "" }

/-- Modelled from the spec: `CloneTask::translateStateInfo` (in `clone-task.cpp`, not
part of the excerpt), the state-label translation step that maps the internal
state tokens to user-facing text.  The table of texts is the parameter
`stateText`; the step writes the label and nothing else. -/
def CloneTask.translateStateInfo (stateText : CloneTask → String)
    (task : CloneTask) : CloneTask :=
  { task with state_str := stateText task }

/-! ## `SeafileRpcClient` -/

/-- Embedding of `SeafileRpcClient::listLocalRepos`.  The failure test is
`repos == NULL`, and the failure branch reads `error->message`: with an empty list
and no error that is a null dereference, rendered as `none`. -/
def listLocalRepos (d : Daemon) (result : List LocalRepo) :
    Option (Int × List LocalRepo × List RpcCall) :=
  let call : RpcCall :=
    { service := kSeafileRpcService, fname := "seafile_get_repo_list"
      args := [RpcArg.int 0, RpcArg.int 0] }
  let reply := d.seafile_get_repo_list 0 0
  match reply.objs with
  | [] =>
    match reply.error with
    | none => none
    | some _ => some (-1, result, [call])
  | obj :: rest =>
    some (0, result ++ (obj :: rest).map LocalRepo.fromGObject, [call])

/-- Embedding of `SeafileRpcClient::getSyncStatus`; `autoSync` is the global setting
`seafApplet->settingsManager()->autoSync()`. -/
def getSyncStatus (d : Daemon) (autoSync : Bool) (repo : LocalRepo) :
    LocalRepo × List RpcCall :=
  if !repo.auto_sync || !autoSync then
    (repo.setSyncInfo (some "auto sync is turned off") none, [])
  else
    let call : RpcCall :=
      { service := kSeafileRpcService, fname := "seafile_get_repo_sync_task"
        args := [RpcArg.str repo.id] }
    let reply := d.seafile_get_repo_sync_task repo.id
    match reply.error with
    | some _ => (repo.setSyncInfo (some "unknown") none, [call])
    | none =>
      match reply.obj with
      | none => (repo.setSyncInfo (some "waiting for sync") none, [call])
      | some task =>
        let state := task.state
        let err := task.error
        (repo.setSyncInfo state (if g_strcmp0 state (some "error") = 0 then err else none),
          [call])

/-- Embedding of `SeafileRpcClient::getLocalRepo`: return code, the repo
out-parameter, the calls issued. -/
def getLocalRepo (d : Daemon) (autoSync : Bool) (repo_id : String) (repo : LocalRepo) :
    Int × LocalRepo × List RpcCall :=
  let call : RpcCall :=
    { service := kSeafileRpcService, fname := "seafile_get_repo"
      args := [RpcArg.str repo_id] }
  let reply := d.seafile_get_repo repo_id
  match reply.error with
  | some _ => (-1, repo, [call])
  | none =>
    match reply.obj with
    | none => (-1, repo, [call])
    | some obj =>
      let synced := getSyncStatus d autoSync (LocalRepo.fromGObject obj)
      (0, synced.1, call :: synced.2)

/-- Embedding of `SeafileRpcClient::ccnetGetConfig`. -/
def ccnetGetConfig (d : Daemon) (key : String) (value : String) :
    Int × String × List RpcCall :=
  let call : RpcCall :=
    { service := kCcnetRpcService, fname := "get_config", args := [RpcArg.str key] }
  let reply := d.get_config key
  match reply.error with
  | some _ => (-1, value, [call])
  | none => (0, QString.fromUtf8 reply.ret, [call])

/-- Embedding of `SeafileRpcClient::seafileGetConfig`. -/
def seafileGetConfig (d : Daemon) (key : String) (value : String) :
    Int × String × List RpcCall :=
  let call : RpcCall :=
    { service := kSeafileRpcService, fname := "seafile_get_config"
      args := [RpcArg.str key] }
  let reply := d.seafile_get_config key
  match reply.error with
  | some _ => (-1, value, [call])
  | none => (0, QString.fromUtf8 reply.ret, [call])

/-- Embedding of `SeafileRpcClient::seafileGetConfigInt`: the out-parameter is
assigned the call's return value before the error is looked at. -/
def seafileGetConfigInt (d : Daemon) (key : String) (_value : Int) :
    Int × Int × List RpcCall :=
  let call : RpcCall :=
    { service := kSeafileRpcService, fname := "seafile_get_config_int"
      args := [RpcArg.str key] }
  let reply := d.seafile_get_config_int key
  let value := reply.ret
  match reply.error with
  | some _ => (-1, value, [call])
  | none => (0, value, [call])

/-- Embedding of `SeafileRpcClient::hasLocalRepo`. -/
def hasLocalRepo (d : Daemon) (autoSync : Bool) (repo_id : String) : Bool :=
  if (getLocalRepo d autoSync repo_id LocalRepo.empty).1 < 0 then false else true

/-- Embedding of `SeafileRpcClient::getTransferDetail`: the task record after the
call and the calls issued. -/
def getTransferDetail (d : Daemon) (task : CloneTask) : CloneTask × List RpcCall :=
  let call : RpcCall :=
    { service := kSeafileRpcService, fname := "seafile_find_transfer_task"
      args := [RpcArg.str task.repo_id] }
  let reply := d.seafile_find_transfer_task task.repo_id
  match reply.error with
  | some _ => (task, [call])
  | none =>
    match reply.obj with
    | none => (task, [call])
    | some obj =>
      if task.state = "error" then
        ({ task with error_str := QString.fromUtf8 obj.error_str }, [call])
      else
        ({ task with block_done := obj.block_done, block_total := obj.block_total },
          [call])

/-- Embedding of `SeafileRpcClient::getCheckOutDetail`: the local `checkout_done`
receives the property "total_files" and `checkout_total` receives
"finished_files", as in the source. -/
def getCheckOutDetail (d : Daemon) (task : CloneTask) : CloneTask × List RpcCall :=
  let call : RpcCall :=
    { service := kSeafileRpcService, fname := "seafile_get_checkout_task"
      args := [RpcArg.str task.repo_id] }
  let reply := d.seafile_get_checkout_task task.repo_id
  match reply.error with
  | some _ => (task, [call])
  | none =>
    match reply.obj with
    | none => (task, [call])
    | some obj =>
      let checkout_done := obj.total_files
      let checkout_total := obj.finished_files
      ({ task with checkout_done := checkout_done, checkout_total := checkout_total },
        [call])

/-- Body of the loop of `getCloneTasks` up to the translation step: map the object,
then dispatch on the state. -/
def getCloneTasksDetail (d : Daemon) (obj : SeafileCloneTask) : CloneTask × List RpcCall :=
  let task := CloneTask.fromGObject obj
  if task.state = "fetch" then
    getTransferDetail d task
  else if task.state = "checkout" then
    getCheckOutDetail d task
  else if task.state = "error" then
    if task.error_str = "fetch" then
      getTransferDetail d task
    else
      (task, [])
  else
    (task, [])

/-- The loop of `getCloneTasks` over the daemon's list: each task is refreshed,
translated and pushed at the back of `tasks`. -/
def getCloneTasksLoop (d : Daemon) (stateText : CloneTask → String) :
    List SeafileCloneTask → List CloneTask → List RpcCall → List CloneTask × List RpcCall
  | [], tasks, calls => (tasks, calls)
  | obj :: rest, tasks, calls =>
    let refreshed := getCloneTasksDetail d obj
    getCloneTasksLoop d stateText rest
      (tasks ++ [refreshed.1.translateStateInfo stateText]) (calls ++ refreshed.2)

/-- Embedding of `SeafileRpcClient::getCloneTasks`: return code, the container
after the call, the calls issued. -/
def getCloneTasks (d : Daemon) (stateText : CloneTask → String) (tasks : List CloneTask) :
    Int × List CloneTask × List RpcCall :=
  let call : RpcCall :=
    { service := kSeafileRpcService, fname := "seafile_get_clone_tasks", args := [] }
  let reply := d.seafile_get_clone_tasks
  match reply.error with
  | some _ => (-1, tasks, [call])
  | none =>
    let done := getCloneTasksLoop d stateText reply.objs tasks [call]
    (0, done.1, done.2)

/-- Embedding of `SeafileRpcClient::cancelCloneTask`; `tr` is the translation lookup
of the toolkit. -/
def cancelCloneTask (tr : String → String) (d : Daemon) (repo_id : String)
    (err : Option String) : Int × Option String × List RpcCall :=
  let call : RpcCall :=
    { service := kSeafileRpcService, fname := "seafile_cancel_clone_task"
      args := [RpcArg.str repo_id] }
  let reply := d.seafile_cancel_clone_task repo_id
  let ret := reply.ret
  if ret < 0 then
    match err with
    | some _ =>
      (ret, some (match reply.error with
                  | some e => e.message
                  | none => tr "Unknown error"), [call])
    | none => (ret, none, [call])
  else
    (ret, err, [call])

/-- Embedding of `SeafileRpcClient::removeCloneTask`. -/
def removeCloneTask (tr : String → String) (d : Daemon) (repo_id : String)
    (err : Option String) : Int × Option String × List RpcCall :=
  let call : RpcCall :=
    { service := kSeafileRpcService, fname := "seafile_remove_clone_task"
      args := [RpcArg.str repo_id] }
  let reply := d.seafile_remove_clone_task repo_id
  let ret := reply.ret
  if ret < 0 then
    match err with
    | some _ =>
      (ret, some (match reply.error with
                  | some e => e.message
                  | none => tr "Unknown error"), [call])
    | none => (ret, none, [call])
  else
    (ret, err, [call])

/-- Embedding of `SeafileRpcClient::getCloneTasksCount`: return code, the count
out-parameter, the calls issued.  The count is written only through a non-null
pointer; `g_list_length` is the length of the list, taken to fit a C `int`. -/
def getCloneTasksCount (d : Daemon) (count : Option Int) :
    Int × Option Int × List RpcCall :=
  let call : RpcCall :=
    { service := kSeafileRpcService, fname := "seafile_get_clone_tasks", args := [] }
  let reply := d.seafile_get_clone_tasks
  match reply.error with
  | some _ => (-1, count, [call])
  | none =>
    match count with
    | some _ => (0, some (reply.objs.length : Int), [call])
    | none => (0, none, [call])

/-! ## `RepoTreeView` -/

/-- The payloads the view stores in an action (`QVariant`). -/
inductive QVariant where
  | invalid
  | localRepo (r : LocalRepo)
  | serverRepo (r : ServerRepo)
  | string (s : String)
deriving DecidableEq, Repr

/-- The two attributes of a `QAction` the view touches. -/
structure QAction where
  enabled : Bool
  data : QVariant
deriving DecidableEq, Repr

/-- Embedding of `QAction::setEnabled`. -/
def QAction.setEnabled (a : QAction) (b : Bool) : QAction :=
  { a with enabled := b }

/-- Embedding of `QAction::setData`. -/
def QAction.setData (a : QAction) (v : QVariant) : QAction :=
  { a with data := v }

/-- A repo item of the tree model (`repo-item.h`): the server repo and its local copy. -/
structure RepoItem where
  repo : ServerRepo
  localRepo : LocalRepo
deriving DecidableEq, Repr

/-- An item of the tree model, by its runtime type tag: `REPO_ITEM_TYPE`,
`REPO_CATEGORY_TYPE`, or any other. -/
inductive QStandardItem where
  | repoItem (item : RepoItem)
  | repoCategoryItem (name : String)
  | other
deriving DecidableEq, Repr

/-- The four context actions owned by the view. -/
structure RepoTreeView where
  download_action_ : QAction
  open_local_folder_action_ : QAction
  view_on_web_action_ : QAction
  show_detail_action_ : QAction
deriving DecidableEq, Repr

/-- Embedding of `RepoTreeView::updateActions`; `item = none` is the null pointer and
`isValid` is `LocalRepo::isValid` (declared in `local-repo.h`, not part of the
excerpt). -/
def updateActions (isValid : LocalRepo → Bool) (v : RepoTreeView) (item : Option RepoItem) :
    RepoTreeView :=
  match item with
  | none =>
    { download_action_ := v.download_action_.setEnabled false
      open_local_folder_action_ := v.open_local_folder_action_.setEnabled false
      view_on_web_action_ := v.view_on_web_action_.setEnabled false
      show_detail_action_ := v.show_detail_action_.setEnabled false }
  | some item =>
    let v :=
      if isValid item.localRepo then
        { v with
          download_action_ := v.download_action_.setEnabled false
          open_local_folder_action_ :=
            (v.open_local_folder_action_.setData (QVariant.localRepo item.localRepo)).setEnabled
              true }
      else
        { v with
          download_action_ :=
            (v.download_action_.setEnabled true).setData (QVariant.serverRepo item.repo)
          open_local_folder_action_ := v.open_local_folder_action_.setEnabled false }
    { v with
      view_on_web_action_ :=
        (v.view_on_web_action_.setEnabled true).setData (QVariant.string item.repo.id)
      show_detail_action_ :=
        (v.show_detail_action_.setEnabled true).setData (QVariant.serverRepo item.repo) }

/-- Embedding of `RepoTreeView::selectionChanged`: `indexes` are the selected model
indexes and `itemFromIndex` is the lookup of the backing model (null is `none`). -/
def selectionChanged (isValid : LocalRepo → Bool) (itemFromIndex : Nat → Option QStandardItem)
    (v : RepoTreeView) (indexes : List Nat) : RepoTreeView :=
  let item : Option RepoItem :=
    match indexes with
    | [] => none
    | index :: _ =>
      match itemFromIndex index with
      | some (QStandardItem.repoItem it) => some it
      | _ => none
  updateActions isValid v item

/-- Embedding of `RepoTreeView::hideEvent`. -/
def hideEvent (isValid : LocalRepo → Bool) (v : RepoTreeView) : RepoTreeView :=
  updateActions isValid v none

/-- Embedding of `RepoTreeView::showEvent`: `selection` is the current selection of the
selection model. -/
def showEvent (isValid : LocalRepo → Bool) (itemFromIndex : Nat → Option QStandardItem)
    (v : RepoTreeView) (selection : List Nat) : RepoTreeView :=
  selectionChanged isValid itemFromIndex v selection

/-! ## Sample daemon states and records -/

/-- A daemon with nothing to report: every lookup succeeds without an object, every
list is empty, every result code is `0`. -/
def Daemon.quiet : Daemon :=
  { seafile_get_repo_list := fun _ _ => { objs := [], error := none }
    seafile_get_repo := fun _ => { obj := none, error := none }
    get_config := fun _ => { ret := none, error := none }
    seafile_get_config := fun _ => { ret := none, error := none }
    seafile_get_config_int := fun _ => { ret := 0, error := none }
    seafile_get_repo_sync_task := fun _ => { obj := none, error := none }
    seafile_get_clone_tasks := { objs := [], error := none }
    seafile_find_transfer_task := fun _ => { obj := none, error := none }
    seafile_get_checkout_task := fun _ => { obj := none, error := none }
    seafile_cancel_clone_task := fun _ => { ret := 0, error := none }
    seafile_remove_clone_task := fun _ => { ret := 0, error := none } }

/-- A daemon on which every call reports an error and returns nothing
(`-1` for integer calls). -/
def Daemon.failing : Daemon :=
  { seafile_get_repo_list := fun _ _ => { objs := [], error := some ⟨"rpc failed"⟩ }
    seafile_get_repo := fun _ => { obj := none, error := some ⟨"rpc failed"⟩ }
    get_config := fun _ => { ret := none, error := some ⟨"rpc failed"⟩ }
    seafile_get_config := fun _ => { ret := none, error := some ⟨"rpc failed"⟩ }
    seafile_get_config_int := fun _ => { ret := -1, error := some ⟨"rpc failed"⟩ }
    seafile_get_repo_sync_task := fun _ => { obj := none, error := some ⟨"rpc failed"⟩ }
    seafile_get_clone_tasks := { objs := [], error := some ⟨"rpc failed"⟩ }
    seafile_find_transfer_task := fun _ => { obj := none, error := some ⟨"rpc failed"⟩ }
    seafile_get_checkout_task := fun _ => { obj := none, error := some ⟨"rpc failed"⟩ }
    seafile_cancel_clone_task := fun _ => { ret := -1, error := some ⟨"rpc failed"⟩ }
    seafile_remove_clone_task := fun _ => { ret := -1, error := some ⟨"rpc failed"⟩ } }

/-- The repo `R1` of the spec's scenarios, with `auto_sync` on. -/
def repoR1 : LocalRepo :=
  { id := "R1", name := "docs", worktree := "/home/u/docs", auto_sync := true
    sync_info := { state := none, error := none } }

/-- The repo `R1` with `auto_sync` off. -/
def repoR1Off : LocalRepo :=
  { repoR1 with auto_sync := false }

/-- A daemon whose sync task for every repo is in state "error" with error
"disk full". -/
def Daemon.diskFull : Daemon :=
  { Daemon.quiet with
    seafile_get_repo_sync_task := fun _ =>
      { obj := some { state := some "error", error := some "disk full" }, error := none } }

/-- A daemon whose sync task for every repo is in state "synchronized" and still
carries an old error text. -/
def Daemon.synchronized : Daemon :=
  { Daemon.quiet with
    seafile_get_repo_sync_task := fun _ =>
      { obj := some { state := some "synchronized", error := some "disk full" }
        error := none } }

/-- A daemon that refuses to cancel or remove a clone task (`-1`) without giving an
error message. -/
def Daemon.refusing : Daemon :=
  { Daemon.quiet with
    seafile_cancel_clone_task := fun _ => { ret := -1, error := none }
    seafile_remove_clone_task := fun _ => { ret := -1, error := none } }

/-- A daemon with three clone tasks under way: one fetching, one checking out, one
failed while fetching.  Every transfer lookup and every checkout lookup succeeds. -/
def Daemon.cloning : Daemon :=
  { Daemon.quiet with
    seafile_get_clone_tasks :=
      { objs :=
          [ { repo_id := some "r1", state := some "fetch", error_str := none
              block_done := 0, block_total := 0, checkout_done := 0, checkout_total := 0 },
            { repo_id := some "r2", state := some "checkout", error_str := none
              block_done := 0, block_total := 0, checkout_done := 0, checkout_total := 0 },
            { repo_id := some "r3", state := some "error", error_str := some "fetch"
              block_done := 0, block_total := 0, checkout_done := 0, checkout_total := 0 } ]
        error := none }
    seafile_find_transfer_task := fun _ =>
      { obj := some { error_str := some "connection lost", block_done := 5, block_total := 10 }
        error := none }
    seafile_get_checkout_task := fun _ =>
      { obj := some { total_files := 8, finished_files := 3 }, error := none } }

/-- A table of state texts that shows the internal token as it is. -/
def plainStateText (task : CloneTask) : String :=
  task.state

/-- A daemon that knows the single repo whose id is "R1". -/
def Daemon.oneRepo : Daemon :=
  { Daemon.quiet with
    seafile_get_repo_list := fun _ _ =>
      { objs := [{ id := some "R1", name := some "docs", worktree := some "/home/u/docs"
                   auto_sync := true }]
        error := none }
    seafile_get_repo := fun repo_id =>
      if repo_id = "R1" then
        { obj := some { id := some "R1", name := some "docs", worktree := some "/home/u/docs"
                        auto_sync := true }
          error := none }
      else
        { obj := none, error := none } }

/-- A validity test for local repo records: a record is valid when it carries an id. -/
def hasId (repo : LocalRepo) : Bool :=
  repo.id != ""

/-- The view right after its actions were created: a new action is enabled and
carries no data. -/
def RepoTreeView.fresh : RepoTreeView :=
  { download_action_ := { enabled := true, data := QVariant.invalid }
    open_local_folder_action_ := { enabled := true, data := QVariant.invalid }
    view_on_web_action_ := { enabled := true, data := QVariant.invalid }
    show_detail_action_ := { enabled := true, data := QVariant.invalid } }

/-- A repo item for `R1` that has a local copy. -/
def itemR1 : RepoItem :=
  { repo := { id := "R1", name := "docs" }, localRepo := repoR1 }

/-- A tree model with a category item in row `0` and the repo item `R1` in row `1`. -/
def sampleModel (index : Nat) : Option QStandardItem :=
  match index with
  | 0 => some (QStandardItem.repoCategoryItem "My Libraries")
  | 1 => some (QStandardItem.repoItem itemR1)
  | _ => none

/-- The daemon of `Daemon.cloning` at a moment when the detail lookups give nothing:
the transfer lookup reports an error, the checkout lookup returns no object. -/
def Daemon.cloningNoDetail : Daemon :=
  { Daemon.cloning with
    seafile_find_transfer_task := fun _ => { obj := none, error := some ⟨"rpc failed"⟩ }
    seafile_get_checkout_task := fun _ => { obj := none, error := none } }

/-! ## Theorems: sync status -/

/-- C1: if the repo's `auto_sync` flag is false or the global auto-sync setting is
off, `getSyncStatus` sets the sync status to exactly "auto sync is turned off",
attaches no detail, leaves the other fields of the repo alone and issues no
daemon call at all. -/
theorem getSyncStatus_auto_sync_off (d : Daemon) (autoSync : Bool) (repo : LocalRepo)
    (h : repo.auto_sync = false ∨ autoSync = false) :
    (getSyncStatus d autoSync repo).1.sync_info.state = some "auto sync is turned off"
    ∧ (getSyncStatus d autoSync repo).1.sync_info.error = none
    ∧ (getSyncStatus d autoSync repo).1
        = { repo with sync_info := (getSyncStatus d autoSync repo).1.sync_info }
    ∧ (getSyncStatus d autoSync repo).2 = [] := by
  have hcond : (!repo.auto_sync || !autoSync) = true := by
    rcases h with h | h <;> simp [h]
  simp [getSyncStatus, hcond, LocalRepo.setSyncInfo]

/-- Witness of C1 on the repo `R1` with `auto_sync` off, against a daemon that would
report a failed sync. -/
theorem getSyncStatus_auto_sync_off_witness :
    (getSyncStatus Daemon.diskFull true repoR1Off).1.sync_info.state
        = some "auto sync is turned off"
    ∧ (getSyncStatus Daemon.diskFull true repoR1Off).1.sync_info.error = none
    ∧ (getSyncStatus Daemon.diskFull true repoR1Off).1
        = { repoR1Off with
            sync_info := (getSyncStatus Daemon.diskFull true repoR1Off).1.sync_info }
    ∧ (getSyncStatus Daemon.diskFull true repoR1Off).2 = [] :=
  getSyncStatus_auto_sync_off Daemon.diskFull true repoR1Off (Or.inl rfl)

/-- C2: with `auto_sync` on, the global setting on, and a sync-task lookup that
succeeds and returns a task, `getSyncStatus` sets the status to the task's state;
the detail is the task's error field when the state is "error", and no detail is
attached for any other state, whatever the error field holds. -/
theorem getSyncStatus_task_state (d : Daemon) (repo : LocalRepo) (task : SeafileSyncTask)
    (hauto : repo.auto_sync = true)
    (herr : (d.seafile_get_repo_sync_task repo.id).error = none)
    (hobj : (d.seafile_get_repo_sync_task repo.id).obj = some task) :
    (getSyncStatus d true repo).1.sync_info.state = task.state
    ∧ (task.state = some "error" →
        (getSyncStatus d true repo).1.sync_info.error = task.error)
    ∧ (task.state ≠ some "error" →
        (getSyncStatus d true repo).1.sync_info.error = none) := by
  have hzero : g_strcmp0 task.state (some "error") = 0 ↔ task.state = some "error" := by
    cases hs : task.state with
    | none => simp [g_strcmp0]
    | some s =>
      by_cases heq : s = "error"
      · simp [g_strcmp0, heq]
      · by_cases hlt : s < "error" <;> simp [g_strcmp0, heq, hlt]
  refine ⟨?_, ?_, ?_⟩
  · simp [getSyncStatus, hauto, herr, hobj, LocalRepo.setSyncInfo]
  · intro hstate
    simp [getSyncStatus, hauto, herr, hobj, LocalRepo.setSyncInfo, hzero.mpr hstate]
  · intro hstate
    have hne : ¬ g_strcmp0 task.state (some "error") = 0 := fun hz => hstate (hzero.mp hz)
    simp [getSyncStatus, hauto, herr, hobj, LocalRepo.setSyncInfo, hne]

/-- Witness of C2: the scenario of the spec, state "error" with error "disk full", and a
task in state "synchronized" whose old error text is not attached. -/
theorem getSyncStatus_task_state_witness :
    ((getSyncStatus Daemon.diskFull true repoR1).1.sync_info.state = some "error"
      ∧ (getSyncStatus Daemon.diskFull true repoR1).1.sync_info.error = some "disk full")
    ∧ ((getSyncStatus Daemon.synchronized true repoR1).1.sync_info.state
          = some "synchronized"
      ∧ (getSyncStatus Daemon.synchronized true repoR1).1.sync_info.error = none) :=
  have h := getSyncStatus_task_state Daemon.diskFull repoR1
    { state := some "error", error := some "disk full" } rfl rfl rfl
  have g := getSyncStatus_task_state Daemon.synchronized repoR1
    { state := some "synchronized", error := some "disk full" } rfl rfl rfl
  ⟨⟨h.1, h.2.1 rfl⟩, ⟨g.1, g.2.2 (by decide)⟩⟩

/-- C3: with `auto_sync` on and the global setting on, `getSyncStatus` sets the status
to "unknown" when the sync-task lookup reports an RPC error and to
"waiting for sync" when it succeeds without a task object; neither case attaches
a detail. -/
theorem getSyncStatus_no_task (d : Daemon) (repo : LocalRepo)
    (hauto : repo.auto_sync = true) :
    ((d.seafile_get_repo_sync_task repo.id).error ≠ none →
        (getSyncStatus d true repo).1.sync_info = { state := some "unknown", error := none })
    ∧ ((d.seafile_get_repo_sync_task repo.id).error = none →
        (d.seafile_get_repo_sync_task repo.id).obj = none →
        (getSyncStatus d true repo).1.sync_info
          = { state := some "waiting for sync", error := none }) := by
  constructor
  · intro herr
    cases he : (d.seafile_get_repo_sync_task repo.id).error with
    | none => exact absurd he herr
    | some e => simp [getSyncStatus, hauto, he, LocalRepo.setSyncInfo]
  · intro herr hobj
    simp [getSyncStatus, hauto, herr, hobj, LocalRepo.setSyncInfo]

/-- Witness of C3: the repo `R1` against a failing daemon and against a daemon with no
sync task. -/
theorem getSyncStatus_no_task_witness :
    (getSyncStatus Daemon.failing true repoR1).1.sync_info
        = { state := some "unknown", error := none }
    ∧ (getSyncStatus Daemon.quiet true repoR1).1.sync_info
        = { state := some "waiting for sync", error := none } :=
  ⟨(getSyncStatus_no_task Daemon.failing repoR1 rfl).1 (by decide),
   (getSyncStatus_no_task Daemon.quiet repoR1 rfl).2 rfl rfl⟩

/-! ## Theorems: clone task listing and count -/

/-- The loop of `getCloneTasks` pushes one translated task per daemon object, in the
daemon's order, behind the previous contents of the container. -/
theorem getCloneTasksLoop_tasks (d : Daemon) (stateText : CloneTask → String)
    (objs : List SeafileCloneTask) (tasks : List CloneTask) (calls : List RpcCall) :
    (getCloneTasksLoop d stateText objs tasks calls).1
      = tasks ++ objs.map
          (fun obj => (getCloneTasksDetail d obj).1.translateStateInfo stateText) := by
  induction objs generalizing tasks calls with
  | nil => simp [getCloneTasksLoop]
  | cons obj rest ih => simp [getCloneTasksLoop, ih]

/-- On success `getCloneTasks` returns `0` and the container described by
`getCloneTasksLoop_tasks`. -/
theorem getCloneTasks_success (d : Daemon) (stateText : CloneTask → String)
    (tasks : List CloneTask) (herr : d.seafile_get_clone_tasks.error = none) :
    (getCloneTasks d stateText tasks).1 = 0
    ∧ (getCloneTasks d stateText tasks).2.1
        = tasks ++ d.seafile_get_clone_tasks.objs.map
            (fun obj => (getCloneTasksDetail d obj).1.translateStateInfo stateText) := by
  simp [getCloneTasks, herr, getCloneTasksLoop_tasks]

/-- The return code of `getCloneTasks` is `-1` exactly when the call reports an error. -/
theorem getCloneTasks_ret (d : Daemon) (stateText : CloneTask → String)
    (tasks : List CloneTask) :
    (getCloneTasks d stateText tasks).1 = -1 ↔ d.seafile_get_clone_tasks.error ≠ none := by
  cases he : d.seafile_get_clone_tasks.error <;> simp [getCloneTasks, he]

/-- C4: when the get-clone-tasks call succeeds, `getCloneTasksCount` returns `0` and
sets the count to the length of the sequence `getCloneTasks` produces into an
empty container from the same reply; each of the two operations returns `-1`
exactly when that call reports an error. -/
theorem getCloneTasksCount_eq_length (d : Daemon) (stateText : CloneTask → String)
    (c : Int) (count : Option Int) (tasks : List CloneTask) :
    (d.seafile_get_clone_tasks.error = none →
        (getCloneTasksCount d (some c)).1 = 0
        ∧ (getCloneTasks d stateText []).1 = 0
        ∧ (getCloneTasksCount d (some c)).2.1
            = some ((getCloneTasks d stateText []).2.1.length : Int))
    ∧ ((getCloneTasksCount d count).1 = -1 ↔ d.seafile_get_clone_tasks.error ≠ none)
    ∧ ((getCloneTasks d stateText tasks).1 = -1 ↔ d.seafile_get_clone_tasks.error ≠ none) := by
  refine ⟨?_, ?_, getCloneTasks_ret d stateText tasks⟩
  · intro herr
    have hs := getCloneTasks_success d stateText [] herr
    refine ⟨?_, hs.1, ?_⟩
    · simp [getCloneTasksCount, herr]
    · rw [hs.2]
      simp [getCloneTasksCount, herr]
  · cases he : d.seafile_get_clone_tasks.error <;> cases count <;>
      simp [getCloneTasksCount, he]

/-- Witness of C4: three clone tasks, a count of three. -/
theorem getCloneTasksCount_eq_length_witness :
    (getCloneTasksCount Daemon.cloning (some 0)).1 = 0
    ∧ (getCloneTasks Daemon.cloning plainStateText []).1 = 0
    ∧ (getCloneTasksCount Daemon.cloning (some 0)).2.1
        = some ((getCloneTasks Daemon.cloning plainStateText []).2.1.length : Int) :=
  (getCloneTasksCount_eq_length Daemon.cloning plainStateText 0 none []).1 rfl

/-! ## Theorems: config getters -/

/-- On error `ccnetGetConfig` returns `-1` and does not touch the out-parameter. -/
theorem ccnetGetConfig_error (d : Daemon) (key value : String)
    (herr : (d.get_config key).error ≠ none) :
    (ccnetGetConfig d key value).1 = -1 ∧ (ccnetGetConfig d key value).2.1 = value := by
  cases he : (d.get_config key).error with
  | none => exact absurd he herr
  | some e => simp [ccnetGetConfig, he]

/-- On error `seafileGetConfig` returns `-1` and does not touch the out-parameter. -/
theorem seafileGetConfig_error (d : Daemon) (key value : String)
    (herr : (d.seafile_get_config key).error ≠ none) :
    (seafileGetConfig d key value).1 = -1 ∧ (seafileGetConfig d key value).2.1 = value := by
  cases he : (d.seafile_get_config key).error with
  | none => exact absurd he herr
  | some e => simp [seafileGetConfig, he]

/-- On error `seafileGetConfigInt` returns `-1`, and the out-parameter holds whatever
the failed call returned. -/
theorem seafileGetConfigInt_error (d : Daemon) (key : String) (value : Int)
    (herr : (d.seafile_get_config_int key).error ≠ none) :
    (seafileGetConfigInt d key value).1 = -1
    ∧ (seafileGetConfigInt d key value).2.1 = (d.seafile_get_config_int key).ret := by
  cases he : (d.seafile_get_config_int key).error with
  | none => exact absurd he herr
  | some e => simp [seafileGetConfigInt, he]

/-- C5 (the code departs from the claim): against a daemon whose every call reports an
error, the two string getters return `-1` and keep the old value "old", while
`seafileGetConfigInt`, called with the out-parameter holding `42`, returns `-1`
and leaves `-1`, the return value of the failed call, in the out-parameter. -/
theorem seafileGetConfigInt_overwrites_on_error :
    (Daemon.failing.seafile_get_config_int "sync_interval").error ≠ none
    ∧ (seafileGetConfigInt Daemon.failing "sync_interval" 42).1 = -1
    ∧ (seafileGetConfigInt Daemon.failing "sync_interval" 42).2.1 = -1
    ∧ (seafileGetConfigInt Daemon.failing "sync_interval" 42).2.1 ≠ 42
    ∧ (ccnetGetConfig Daemon.failing "sync_interval" "old").1 = -1
    ∧ (ccnetGetConfig Daemon.failing "sync_interval" "old").2.1 = "old"
    ∧ (seafileGetConfig Daemon.failing "sync_interval" "old").1 = -1
    ∧ (seafileGetConfig Daemon.failing "sync_interval" "old").2.1 = "old" := by
  refine ⟨by decide, rfl, rfl, by decide, rfl, rfl, rfl, rfl⟩

/-! ## Theorems: repo listing -/

/-- When the repo-list call fails (an error and no list), `listLocalRepos` returns `-1`
and leaves the container as it was. -/
theorem listLocalRepos_failed (d : Daemon) (result : List LocalRepo) (e : GError)
    (hobjs : (d.seafile_get_repo_list 0 0).objs = [])
    (herr : (d.seafile_get_repo_list 0 0).error = some e) :
    (listLocalRepos d result).map (fun r => (r.1, r.2.1)) = some (-1, result) := by
  simp [listLocalRepos, hobjs, herr]

/-- For a reply with at least one object, `listLocalRepos` returns `0` and appends one
`LocalRepo` per daemon object, in the daemon's order, behind the previous
contents. -/
theorem listLocalRepos_nonempty (d : Daemon) (result : List LocalRepo)
    (hobjs : (d.seafile_get_repo_list 0 0).objs ≠ []) :
    (listLocalRepos d result).map (fun r => (r.1, r.2.1))
      = some (0, result ++ (d.seafile_get_repo_list 0 0).objs.map LocalRepo.fromGObject) := by
  cases ho : (d.seafile_get_repo_list 0 0).objs with
  | nil => exact absurd ho hobjs
  | cons obj rest => simp [listLocalRepos, ho]

/-- C6 (the code departs from the claim): a successful reply of length zero, the
empty list with no error, sends `listLocalRepos` into its failure branch, where
it reads the message of a null error; it does not return `0`.  A reply with one
repo is handled as the claim says. -/
theorem listLocalRepos_empty_reply :
    (Daemon.quiet.seafile_get_repo_list 0 0).objs = []
    ∧ (Daemon.quiet.seafile_get_repo_list 0 0).error = none
    ∧ listLocalRepos Daemon.quiet [repoR1] = none
    ∧ (listLocalRepos Daemon.oneRepo []).map (fun r => (r.1, r.2.1))
        = some (0, [{ repoR1 with sync_info := { state := none, error := none } }]) := by
  refine ⟨rfl, rfl, rfl, ?_⟩
  decide

/-! ## Theorems: cancelling and removing a clone task -/

/-- C7: `cancelCloneTask` and `removeCloneTask` return the daemon's result code
unchanged; with a negative code and an error out-parameter supplied, the
out-parameter receives the daemon's error message when there is one and the
generic "Unknown error" text otherwise; with a non-negative code the
out-parameter keeps its value. -/
theorem cloneTask_cancel_remove (tr : String → String) (d : Daemon) (repo_id : String)
    (err : Option String) (old : String) :
    ((cancelCloneTask tr d repo_id err).1 = (d.seafile_cancel_clone_task repo_id).ret
      ∧ (∀ e, (d.seafile_cancel_clone_task repo_id).ret < 0 →
            (d.seafile_cancel_clone_task repo_id).error = some e →
            (cancelCloneTask tr d repo_id (some old)).2.1 = some e.message)
      ∧ ((d.seafile_cancel_clone_task repo_id).ret < 0 →
            (d.seafile_cancel_clone_task repo_id).error = none →
            (cancelCloneTask tr d repo_id (some old)).2.1 = some (tr "Unknown error"))
      ∧ (0 ≤ (d.seafile_cancel_clone_task repo_id).ret →
            (cancelCloneTask tr d repo_id err).2.1 = err))
    ∧ ((removeCloneTask tr d repo_id err).1 = (d.seafile_remove_clone_task repo_id).ret
      ∧ (∀ e, (d.seafile_remove_clone_task repo_id).ret < 0 →
            (d.seafile_remove_clone_task repo_id).error = some e →
            (removeCloneTask tr d repo_id (some old)).2.1 = some e.message)
      ∧ ((d.seafile_remove_clone_task repo_id).ret < 0 →
            (d.seafile_remove_clone_task repo_id).error = none →
            (removeCloneTask tr d repo_id (some old)).2.1 = some (tr "Unknown error"))
      ∧ (0 ≤ (d.seafile_remove_clone_task repo_id).ret →
            (removeCloneTask tr d repo_id err).2.1 = err)) := by
  refine ⟨⟨?_, ?_, ?_, ?_⟩, ⟨?_, ?_, ?_, ?_⟩⟩
  · unfold cancelCloneTask
    cases err <;> simp only [] <;> split <;> rfl
  · intro e hneg herr
    simp [cancelCloneTask, hneg, herr]
  · intro hneg herr
    simp [cancelCloneTask, hneg, herr]
  · intro hpos
    simp [cancelCloneTask, not_lt.mpr hpos]
  · unfold removeCloneTask
    cases err <;> simp only [] <;> split <;> rfl
  · intro e hneg herr
    simp [removeCloneTask, hneg, herr]
  · intro hneg herr
    simp [removeCloneTask, hneg, herr]
  · intro hpos
    simp [removeCloneTask, not_lt.mpr hpos]

/-- Witness of C7: a daemon that fails with a message, a daemon that refuses without
one, and a daemon that succeeds. -/
theorem cloneTask_cancel_remove_witness :
    (cancelCloneTask id Daemon.failing "r1" (some "")).1 = -1
    ∧ (cancelCloneTask id Daemon.failing "r1" (some "")).2.1 = some "rpc failed"
    ∧ (removeCloneTask id Daemon.refusing "r1" (some "")).2.1 = some "Unknown error"
    ∧ (cancelCloneTask id Daemon.quiet "r1" (some "earlier")).2.1 = some "earlier" :=
  ⟨(cloneTask_cancel_remove id Daemon.failing "r1" (some "") "").1.1,
   (cloneTask_cancel_remove id Daemon.failing "r1" (some "") "").1.2.1 ⟨"rpc failed"⟩
     (by decide) rfl,
   (cloneTask_cancel_remove id Daemon.refusing "r1" (some "") "").2.2.2.1 (by decide) rfl,
   (cloneTask_cancel_remove id Daemon.quiet "r1" (some "earlier") "").1.2.2.2 (by decide)⟩

/-! ## Theorems: existence check -/

/-- C8: `hasLocalRepo` is true exactly when `getLocalRepo` returns `0`, and that
happens exactly when the get-repo call reports no error and returns an object. -/
theorem hasLocalRepo_iff_getLocalRepo (d : Daemon) (autoSync : Bool) (repo_id : String)
    (repo : LocalRepo) :
    (hasLocalRepo d autoSync repo_id = true ↔ (getLocalRepo d autoSync repo_id repo).1 = 0)
    ∧ ((getLocalRepo d autoSync repo_id repo).1 = 0 ↔
        ((d.seafile_get_repo repo_id).error = none
          ∧ (d.seafile_get_repo repo_id).obj ≠ none)) := by
  cases he : (d.seafile_get_repo repo_id).error <;>
    cases ho : (d.seafile_get_repo repo_id).obj <;>
    simp [hasLocalRepo, getLocalRepo, he, ho]

/-! ## Theorems: action enablement -/

/-- C9: after `updateActions` with no item (which is what an empty selection, a
selected non-repo item and hiding the view all lead to) the four actions are
disabled; with a repo item that has a valid local copy, "open folder" is enabled
with that local repo as its data and "download" is disabled; and whatever the
item, every action that ends up enabled carries the data of the selected item. -/
theorem updateActions_enablement (isValid : LocalRepo → Bool) (v : RepoTreeView)
    (item : Option RepoItem) (it : RepoItem) (itemFromIndex : Nat → Option QStandardItem)
    (index : Nat) (rest : List Nat) :
    ((updateActions isValid v none).download_action_.enabled = false
      ∧ (updateActions isValid v none).open_local_folder_action_.enabled = false
      ∧ (updateActions isValid v none).view_on_web_action_.enabled = false
      ∧ (updateActions isValid v none).show_detail_action_.enabled = false)
    ∧ hideEvent isValid v = updateActions isValid v none
    ∧ selectionChanged isValid itemFromIndex v [] = updateActions isValid v none
    ∧ ((∀ r, itemFromIndex index ≠ some (QStandardItem.repoItem r)) →
        selectionChanged isValid itemFromIndex v (index :: rest)
          = updateActions isValid v none)
    ∧ (isValid it.localRepo = true →
        (updateActions isValid v (some it)).open_local_folder_action_
            = { enabled := true, data := QVariant.localRepo it.localRepo }
        ∧ (updateActions isValid v (some it)).download_action_.enabled = false)
    ∧ ((updateActions isValid v item).download_action_.enabled = true →
        ∃ x, item = some x
          ∧ (updateActions isValid v item).download_action_.data = QVariant.serverRepo x.repo)
    ∧ ((updateActions isValid v item).open_local_folder_action_.enabled = true →
        ∃ x, item = some x
          ∧ (updateActions isValid v item).open_local_folder_action_.data
              = QVariant.localRepo x.localRepo)
    ∧ ((updateActions isValid v item).view_on_web_action_.enabled = true →
        ∃ x, item = some x
          ∧ (updateActions isValid v item).view_on_web_action_.data = QVariant.string x.repo.id)
    ∧ ((updateActions isValid v item).show_detail_action_.enabled = true →
        ∃ x, item = some x
          ∧ (updateActions isValid v item).show_detail_action_.data
              = QVariant.serverRepo x.repo) := by
  refine ⟨?_, rfl, rfl, ?_, ?_, ?_, ?_, ?_, ?_⟩
  · simp [updateActions, QAction.setEnabled]
  · intro hno
    have hitem : (match itemFromIndex index with
        | some (QStandardItem.repoItem r) => some r
        | _ => none) = (none : Option RepoItem) := by
      cases hi : itemFromIndex index with
      | none => rfl
      | some q =>
        cases q with
        | repoItem r => exact absurd hi (hno r)
        | repoCategoryItem name => rfl
        | other => rfl
    simp only [selectionChanged, hitem]
  · intro hvalid
    simp [updateActions, hvalid, QAction.setEnabled, QAction.setData]
  · cases item with
    | none => simp [updateActions, QAction.setEnabled]
    | some x =>
      by_cases hvalid : isValid x.localRepo = true <;>
        simp [updateActions, hvalid, QAction.setEnabled, QAction.setData]
  · cases item with
    | none => simp [updateActions, QAction.setEnabled]
    | some x =>
      by_cases hvalid : isValid x.localRepo = true <;>
        simp [updateActions, hvalid, QAction.setEnabled, QAction.setData]
  · cases item with
    | none => simp [updateActions, QAction.setEnabled]
    | some x =>
      by_cases hvalid : isValid x.localRepo = true <;>
        simp [updateActions, hvalid, QAction.setEnabled, QAction.setData]
  · cases item with
    | none => simp [updateActions, QAction.setEnabled]
    | some x =>
      by_cases hvalid : isValid x.localRepo = true <;>
        simp [updateActions, hvalid, QAction.setEnabled, QAction.setData]

/-- Witness of C9: selecting the category row of the sample model disables all four
actions, and the repo item `R1`, which has a local copy, gets "open folder"
enabled with its local repo attached and "download" disabled. -/
theorem updateActions_enablement_witness :
    selectionChanged hasId sampleModel RepoTreeView.fresh [0]
        = updateActions hasId RepoTreeView.fresh none
    ∧ (updateActions hasId RepoTreeView.fresh (some itemR1)).open_local_folder_action_
        = { enabled := true, data := QVariant.localRepo repoR1 }
    ∧ (updateActions hasId RepoTreeView.fresh (some itemR1)).download_action_.enabled = false
    ∧ (∃ x, some itemR1 = some x
        ∧ (updateActions hasId RepoTreeView.fresh (some itemR1)).show_detail_action_.data
            = QVariant.serverRepo x.repo) :=
  have h := updateActions_enablement hasId RepoTreeView.fresh (some itemR1) itemR1
    sampleModel 0 []
  ⟨h.2.2.2.1 (by intro r; simp [sampleModel]), (h.2.2.2.2.1 (by decide)).1, (h.2.2.2.2.1 (by decide)).2,
   h.2.2.2.2.2.2.2.2 (by decide)⟩

/-! ## Theorems: clone tasks that failed while fetching -/

/-- What `getCloneTasks` appends for a daemon object found at position `i` of a
successful reply: the refreshed and translated task, at position `i` behind the
previous contents. -/
theorem getCloneTasks_appended (d : Daemon) (stateText : CloneTask → String)
    (tasks : List CloneTask) (i : Nat) (obj : SeafileCloneTask)
    (hcall : d.seafile_get_clone_tasks.error = none)
    (hobj : d.seafile_get_clone_tasks.objs[i]? = some obj) :
    (getCloneTasks d stateText tasks).2.1[tasks.length + i]?
      = some ((getCloneTasksDetail d obj).1.translateStateInfo stateText) := by
  rw [(getCloneTasks_success d stateText tasks hcall).2]
  rw [List.getElem?_append_right (Nat.le_add_right _ _)]
  simp [hobj]

/-- C10 (amended): for a clone task returned in state "error" with error text "fetch"
whose transfer-task lookup succeeds, the task that `getCloneTasks` appends has its
error text replaced by the error text of the transfer task, and its `block_done`
and `block_total` are the values mapped from the clone-task object. -/
theorem getCloneTasks_error_fetch (d : Daemon) (stateText : CloneTask → String)
    (tasks : List CloneTask) (i : Nat) (obj : SeafileCloneTask) (tobj : SeafileTask)
    (hcall : d.seafile_get_clone_tasks.error = none)
    (hobj : d.seafile_get_clone_tasks.objs[i]? = some obj)
    (hstate : obj.state = some "error") (herrstr : obj.error_str = some "fetch")
    (hterr : (d.seafile_find_transfer_task (QString.fromUtf8 obj.repo_id)).error = none)
    (htobj : (d.seafile_find_transfer_task (QString.fromUtf8 obj.repo_id)).obj = some tobj) :
    ∃ task, (getCloneTasks d stateText tasks).2.1[tasks.length + i]? = some task
      ∧ task.error_str = QString.fromUtf8 tobj.error_str
      ∧ task.block_done = obj.block_done
      ∧ task.block_total = obj.block_total := by
  refine ⟨_, getCloneTasks_appended d stateText tasks i obj hcall hobj, ?_⟩
  have hs : (CloneTask.fromGObject obj).state = "error" := by
    simp [CloneTask.fromGObject, hstate, QString.fromUtf8]
  have he : (CloneTask.fromGObject obj).error_str = "fetch" := by
    simp [CloneTask.fromGObject, herrstr, QString.fromUtf8]
  have hid : (CloneTask.fromGObject obj).repo_id = QString.fromUtf8 obj.repo_id := rfl
  simp [getCloneTasksDetail, getTransferDetail, hs, he, hid, hterr, htobj,
    CloneTask.translateStateInfo]
  simp [CloneTask.fromGObject]

/-- Witness of C10 (amended): the third task of the sample daemon, failed while
fetching, comes back with the transfer task's error text and its own progress
values. -/
theorem getCloneTasks_error_fetch_witness :
    ∃ task, (getCloneTasks Daemon.cloning plainStateText []).2.1[([] : List CloneTask).length + 2]?
        = some task
      ∧ task.error_str = QString.fromUtf8 (some "connection lost")
      ∧ task.block_done = 0
      ∧ task.block_total = 0 :=
  getCloneTasks_error_fetch Daemon.cloning plainStateText [] 2
    { repo_id := some "r3", state := some "error", error_str := some "fetch"
      block_done := 0, block_total := 0, checkout_done := 0, checkout_total := 0 }
    { error_str := some "connection lost", block_done := 5, block_total := 10 }
    rfl rfl rfl rfl rfl rfl

/-- Counterexample to C10 as stated: the sample daemon returns a clone task in state
"error" with error text "fetch"; the transfer-task lookup for its repo id succeeds
and reports 5 blocks of 10; the task `getCloneTasks` appends still has 0 of 0. -/
theorem getCloneTasks_error_fetch_not_refreshed :
    Daemon.cloning.seafile_get_clone_tasks.error = none
    ∧ (Daemon.cloning.seafile_get_clone_tasks.objs[2]?).map
        (fun obj => (obj.repo_id, obj.state, obj.error_str))
        = some (some "r3", some "error", some "fetch")
    ∧ (Daemon.cloning.seafile_find_transfer_task "r3").error = none
    ∧ ((Daemon.cloning.seafile_find_transfer_task "r3").obj).map
        (fun tobj => (tobj.block_done, tobj.block_total)) = some (5, 10)
    ∧ (getCloneTasks Daemon.cloning plainStateText []).1 = 0
    ∧ ((getCloneTasks Daemon.cloning plainStateText []).2.1[2]?).map
        (fun task => (task.block_done, task.block_total)) = some (0, 0)
    ∧ ((getCloneTasks Daemon.cloning plainStateText []).2.1[2]?).map
        (fun task => (task.block_done, task.block_total)) ≠ some (5, 10) := by
  decide

/-! ## Theorems: detail lookups -/

/-- A transfer lookup that reports an error or returns no object leaves the task
record as it was. -/
theorem getTransferDetail_failed (d : Daemon) (task : CloneTask)
    (h : (d.seafile_find_transfer_task task.repo_id).error ≠ none
      ∨ (d.seafile_find_transfer_task task.repo_id).obj = none) :
    (getTransferDetail d task).1 = task := by
  cases he : (d.seafile_find_transfer_task task.repo_id).error with
  | some e => simp [getTransferDetail, he]
  | none =>
    rcases h with h | h
    · exact absurd he h
    · simp [getTransferDetail, he, h]

/-- A checkout lookup that reports an error or returns no object leaves the task
record as it was. -/
theorem getCheckOutDetail_failed (d : Daemon) (task : CloneTask)
    (h : (d.seafile_get_checkout_task task.repo_id).error ≠ none
      ∨ (d.seafile_get_checkout_task task.repo_id).obj = none) :
    (getCheckOutDetail d task).1 = task := by
  cases he : (d.seafile_get_checkout_task task.repo_id).error with
  | some e => simp [getCheckOutDetail, he]
  | none =>
    rcases h with h | h
    · exact absurd he h
    · simp [getCheckOutDetail, he, h]

/-- A checkout lookup that succeeds writes the property "total_files" into
`checkout_done` and the property "finished_files" into `checkout_total`, and
nothing else. -/
theorem getCheckOutDetail_success (d : Daemon) (task : CloneTask) (cobj : SeafileCheckoutTask)
    (herr : (d.seafile_get_checkout_task task.repo_id).error = none)
    (hobj : (d.seafile_get_checkout_task task.repo_id).obj = some cobj) :
    (getCheckOutDetail d task).1
      = { task with checkout_done := cobj.total_files
                    checkout_total := cobj.finished_files } := by
  simp [getCheckOutDetail, herr, hobj]

/-- When the lookup that the dispatch of `getCloneTasks` makes for an object gives
nothing, the refreshed task is the task mapped from the object. -/
theorem getCloneTasksDetail_failed (d : Daemon) (obj : SeafileCloneTask)
    (hT : ((CloneTask.fromGObject obj).state = "fetch"
          ∨ ((CloneTask.fromGObject obj).state = "error"
              ∧ (CloneTask.fromGObject obj).error_str = "fetch")) →
        ((d.seafile_find_transfer_task (CloneTask.fromGObject obj).repo_id).error ≠ none
          ∨ (d.seafile_find_transfer_task (CloneTask.fromGObject obj).repo_id).obj = none))
    (hC : (CloneTask.fromGObject obj).state = "checkout" →
        ((d.seafile_get_checkout_task (CloneTask.fromGObject obj).repo_id).error ≠ none
          ∨ (d.seafile_get_checkout_task (CloneTask.fromGObject obj).repo_id).obj = none)) :
    (getCloneTasksDetail d obj).1 = CloneTask.fromGObject obj := by
  unfold getCloneTasksDetail
  simp only []
  split_ifs with h1 h2 h3 h4
  · exact getTransferDetail_failed d _ (hT (Or.inl h1))
  · exact getCheckOutDetail_failed d _ (hC h2)
  · exact getTransferDetail_failed d _ (hT (Or.inr ⟨h3, h4⟩))
  · rfl
  · rfl

/-- C11 (the code departs from the claim): the sample daemon returns a clone task in
state "checkout" whose checkout-task lookup succeeds with 3 finished files of 8;
the task `getCloneTasks` appends has `checkout_done = 8` and `checkout_total = 3`,
the two counts exchanged.  When the lookup gives nothing, both fields keep the
values mapped from the clone-task object, as the claim says. -/
theorem getCloneTasks_checkout_exchanged :
    Daemon.cloning.seafile_get_clone_tasks.error = none
    ∧ (Daemon.cloning.seafile_get_clone_tasks.objs[1]?).map
        (fun obj => (obj.repo_id, obj.state, obj.checkout_done, obj.checkout_total))
        = some (some "r2", some "checkout", 0, 0)
    ∧ (Daemon.cloning.seafile_get_checkout_task "r2").error = none
    ∧ ((Daemon.cloning.seafile_get_checkout_task "r2").obj).map
        (fun cobj => (cobj.finished_files, cobj.total_files)) = some (3, 8)
    ∧ ((getCloneTasks Daemon.cloning plainStateText []).2.1[1]?).map
        (fun task => (task.checkout_done, task.checkout_total)) = some (8, 3)
    ∧ ((getCloneTasks Daemon.cloning plainStateText []).2.1[1]?).map
        (fun task => (task.checkout_done, task.checkout_total)) ≠ some (3, 8)
    ∧ ((getCloneTasks Daemon.cloningNoDetail plainStateText []).2.1[1]?).map
        (fun task => (task.checkout_done, task.checkout_total)) = some (0, 0) := by
  decide

/-- C12: when the keyed lookup made by `getTransferDetail` (resp. `getCheckOutDetail`)
reports an RPC error or returns no object, the task record after the call equals
the record before it; and no failure reaches the caller: `getCloneTasks` still
returns `0` and appends, at the object's position, the task mapped from the
object with only the state label translated. -/
theorem detail_lookup_failure_silent (d : Daemon) (stateText : CloneTask → String)
    (task : CloneTask) (tasks : List CloneTask) (i : Nat) (obj : SeafileCloneTask) :
    (((d.seafile_find_transfer_task task.repo_id).error ≠ none
        ∨ (d.seafile_find_transfer_task task.repo_id).obj = none) →
      (getTransferDetail d task).1 = task)
    ∧ (((d.seafile_get_checkout_task task.repo_id).error ≠ none
        ∨ (d.seafile_get_checkout_task task.repo_id).obj = none) →
      (getCheckOutDetail d task).1 = task)
    ∧ (d.seafile_get_clone_tasks.error = none →
      d.seafile_get_clone_tasks.objs[i]? = some obj →
      (((CloneTask.fromGObject obj).state = "fetch"
          ∨ ((CloneTask.fromGObject obj).state = "error"
              ∧ (CloneTask.fromGObject obj).error_str = "fetch")) →
        ((d.seafile_find_transfer_task (CloneTask.fromGObject obj).repo_id).error ≠ none
          ∨ (d.seafile_find_transfer_task (CloneTask.fromGObject obj).repo_id).obj = none)) →
      ((CloneTask.fromGObject obj).state = "checkout" →
        ((d.seafile_get_checkout_task (CloneTask.fromGObject obj).repo_id).error ≠ none
          ∨ (d.seafile_get_checkout_task (CloneTask.fromGObject obj).repo_id).obj = none)) →
      (getCloneTasks d stateText tasks).1 = 0
      ∧ (getCloneTasks d stateText tasks).2.1.length
          = tasks.length + d.seafile_get_clone_tasks.objs.length
      ∧ (getCloneTasks d stateText tasks).2.1[tasks.length + i]?
          = some ((CloneTask.fromGObject obj).translateStateInfo stateText)) := by
  refine ⟨getTransferDetail_failed d task, getCheckOutDetail_failed d task, ?_⟩
  intro hcall hobj hT hC
  have hs := getCloneTasks_success d stateText tasks hcall
  refine ⟨hs.1, ?_, ?_⟩
  · rw [hs.2]
    simp
  · rw [getCloneTasks_appended d stateText tasks i obj hcall hobj,
      getCloneTasksDetail_failed d obj hT hC]

/-- Witness of C12: against the sample daemon whose detail lookups give nothing, the
fetching task is returned unchanged by `getTransferDetail`, and `getCloneTasks`
returns `0` with all three tasks, the one checking out as mapped from its object. -/
theorem detail_lookup_failure_silent_witness :
    (getTransferDetail Daemon.cloningNoDetail
        (CloneTask.fromGObject
          { repo_id := some "r1", state := some "fetch", error_str := none
            block_done := 0, block_total := 0, checkout_done := 0, checkout_total := 0 })).1
      = CloneTask.fromGObject
          { repo_id := some "r1", state := some "fetch", error_str := none
            block_done := 0, block_total := 0, checkout_done := 0, checkout_total := 0 }
    ∧ (getCloneTasks Daemon.cloningNoDetail plainStateText []).1 = 0
    ∧ (getCloneTasks Daemon.cloningNoDetail plainStateText []).2.1.length
        = ([] : List CloneTask).length + Daemon.cloningNoDetail.seafile_get_clone_tasks.objs.length
    ∧ (getCloneTasks Daemon.cloningNoDetail plainStateText []).2.1[([] : List CloneTask).length + 1]?
        = some ((CloneTask.fromGObject
            { repo_id := some "r2", state := some "checkout", error_str := none
              block_done := 0, block_total := 0, checkout_done := 0
              checkout_total := 0 }).translateStateInfo plainStateText) :=
  have h := detail_lookup_failure_silent Daemon.cloningNoDetail plainStateText
    (CloneTask.fromGObject
      { repo_id := some "r1", state := some "fetch", error_str := none
        block_done := 0, block_total := 0, checkout_done := 0, checkout_total := 0 })
    [] 1
    { repo_id := some "r2", state := some "checkout", error_str := none
      block_done := 0, block_total := 0, checkout_done := 0, checkout_total := 0 }
  ⟨h.1 (Or.inl (by decide)),
   h.2.2 rfl rfl (fun _ => Or.inl (by decide)) (fun _ => Or.inr rfl)⟩

end SeafileClient
